import Mathlib

/-!
Verification of the HiFly_Drone tracking control subsystem.

Shallow embedding of:
  * `src/ros_atlas/pidTracker/action_server.py` (class `PIDActionServer`):
    the PID output equation, the detection-feedback subscriber callback,
    the CONNECT retry loop, and the SEARCH/TRACK control ticks;
  * `src/ros_atlas/pidTracker/action_client.py`: the smach `Concurrence`
    composite outcome of the PUBLISH and CONTROL_MOTOR activities;
  * `src/ros_atlas/hifly_base/BaseInference.py`: the bounded frame queue
    (`Queue(maxsize=5)`) with its producer (`image_callback`) and consumer
    (`run`) operations.

Python floats are modelled as rationals; `int(...)` truncation toward zero
and `np.clip` are modelled explicitly.  The `self._area` attribute of
`PIDActionServer` is never assigned in `__init__`, so it is modelled as an
`Option ℚ` that starts out `none`; reading it while it is `none`
corresponds to the `AttributeError` the Python would raise.
-/

namespace HiFly

/-- A `ProcessVar` message as read by `process_var_sub_cb`: bounding-box
area and the bounding-box center coordinates `cx`, `cy`. -/
structure ProcessVar where
  area : ℚ
  cx : ℚ
  cy : ℚ
  deriving DecidableEq

/-- The mutable attributes of `PIDActionServer` that the control logic
reads and writes (`action_server.py`, `__init__`, lines 44-54).
`area` is `Option ℚ` because `self._area` is not initialized in
`__init__`; it is first assigned inside `process_var_sub_cb`. -/
structure PIDActionServer where
  setpoint_area : ℚ × ℚ
  setpoint_center : ℚ × ℚ
  pid_input : ℚ × ℚ × ℚ
  is_search : Bool
  x_err : ℚ
  y_err : ℚ
  prev_x_err : ℚ
  prev_y_err : ℚ
  area : Option ℚ
  deriving DecidableEq

/-- The state set up by `PIDActionServer.__init__` (lines 44-54):
`setpoint_area = (20000, 100000)`, `setpoint_center = (480, 360)`,
`pid_input = [0.1, 0.1, 0.1]`, `_is_search = True`, all errors `0`,
and `_area` left unassigned. -/
def initServer : PIDActionServer :=
  { setpoint_area := (20000, 100000)
    setpoint_center := (480, 360)
    pid_input := (1/10, 1/10, 1/10)
    is_search := true
    x_err := 0
    y_err := 0
    prev_x_err := 0
    prev_y_err := 0
    area := none }

/-- `PIDActionServer.pid` (lines 70-72):
`pid_input[0]*error + pid_input[1]*(error-prev_error) + pid_input[2]*(error-prev_error)`. -/
def pid (s : PIDActionServer) (error prev_error : ℚ) : ℚ :=
  s.pid_input.1 * error + s.pid_input.2.1 * (error - prev_error)
    + s.pid_input.2.2 * (error - prev_error)

/-- `PIDActionServer.process_var_sub_cb` (lines 74-93).  When
`msg.area == 0` it sets `_is_search = True` and assigns
`_x_err = _prev_x_err`, `_y_err = _prev_y_err`; otherwise it sets
`_is_search = False`, `_area = msg.area`,
`_x_err = msg.cx - setpoint_center[0]`,
`_y_err = setpoint_center[1] - msg.cy`. -/
def process_var_sub_cb (s : PIDActionServer) (msg : ProcessVar) : PIDActionServer :=
  if msg.area = 0 then
    { s with is_search := true, x_err := s.prev_x_err, y_err := s.prev_y_err }
  else
    { s with is_search := false, area := some msg.area,
             x_err := msg.cx - s.setpoint_center.1,
             y_err := s.setpoint_center.2 - msg.cy }

/-- Scalar `np.clip(v, lo, hi)`: `max` with the lower bound, then `min`
with the upper bound (the upper bound wins if the bounds cross). -/
def npclip (v lo hi : ℚ) : ℚ := min (max v lo) hi

/-- Python `int(...)` on a float: truncation toward zero. -/
def pyint (q : ℚ) : ℤ := if 0 ≤ q then ⌊q⌋ else ⌈q⌉

/-- The actuator command assembled by one iteration of the TRACK loop
body: the four local velocity variables of `execute_track_cb`. -/
structure Cmd where
  left_right : ℤ
  forward_backward : ℤ
  up_down : ℤ
  yaw : ℤ
  deriving DecidableEq

/-- One iteration of the `execute_track_cb` loop body (lines 157-201).
All four velocities are local variables initialized to 0.  `yaw` is
`int(np.clip(pid(x_err, prev_x_err), -100, 100))` when `x_err != 0`;
`up_down` is `int(np.clip(3*pid(y_err, prev_y_err), -50, 50))` when
`y_err != 0`; `forward_backward` is 0 / 20 / -20 by the area branches
(lines 177-182).  Reading `self._area` requires it to have been
assigned, hence the `Option`. -/
def trackTickCmd (s : PIDActionServer) : Option Cmd :=
  let yaw_velocity : ℤ :=
    if s.x_err ≠ 0 then pyint (npclip (pid s s.x_err s.prev_x_err) (-100) 100) else 0
  let up_down_velocity : ℤ :=
    if s.y_err ≠ 0 then pyint (npclip (3 * pid s s.y_err s.prev_y_err) (-50) 50) else 0
  match s.area with
  | none => none
  | some a =>
    let forward_backward_velocity : ℤ :=
      if s.setpoint_area.1 < a ∧ a < s.setpoint_area.2 then 0
      else if a < s.setpoint_area.1 then 20
      else if s.setpoint_area.2 < a then -20
      else 0
    some { left_right := 0, forward_backward := forward_backward_velocity,
           up_down := up_down_velocity, yaw := yaw_velocity }

/-- One iteration of the `execute_track_cb` loop as a state transformer.
The Python loop body (lines 159-199) assigns only the four *local*
velocity variables and reads `self` attributes; no attribute of `self`
is assigned anywhere in the body — in particular `_prev_x_err` and
`_prev_y_err` are not updated — so the server state is returned
unchanged alongside the computed command. -/
def execute_track_cb_body (s : PIDActionServer) : PIDActionServer × Option Cmd :=
  (s, trackTickCmd s)

/-- One iteration of the `execute_search_cb` loop (lines 150-155): the
body is `pass` (the rotate-drone behavior is an unimplemented stub), so
the state is unchanged. -/
def execute_search_cb_body (s : PIDActionServer) : PIDActionServer := s

/-- One iteration of the `execute_main_cb` loop (lines 203-210): run the
search branch when `_is_search` holds, else the track branch.  Neither
branch mutates the server state. -/
def mainTick (s : PIDActionServer) : PIDActionServer :=
  if s.is_search then execute_search_cb_body s else (execute_track_cb_body s).1

/-- A public operation on the server after `__init__`: either the
subscriber delivers a `ProcessVar` message (`process_var_sub_cb`), or
the main control loop performs one tick (`execute_main_cb` body). -/
inductive ServerOp where
  | result (msg : ProcessVar)
  | tick
  deriving DecidableEq

/-- Apply one public operation to the server state. -/
def stepServer (s : PIDActionServer) (op : ServerOp) : PIDActionServer :=
  match op with
  | .result msg => process_var_sub_cb s msg
  | .tick => mainTick s

/-- The server state reached from `__init__` by a sequence of public
operations. -/
def runServer (ops : List ServerOp) : PIDActionServer :=
  ops.foldl stepServer initServer

/-! ## The CONNECT retry loop (`execute_init_cb`, lines 95-120)

One loop iteration observes: whether the client has requested a preempt,
how much wall-clock time has elapsed since `start_time`, and what the
`connect_uav()` attempt does (raise, return `None`, or return a drone
handle).  The iteration emits terminal-status calls on the action server
(`set_preempted` / `set_aborted` / `set_succeeded`) in source order, and
either re-raises an exception out of the callback, keeps looping, or
exits after a successful connect. -/

/-- What one `connect_uav()` attempt does. -/
inductive ConnectAttempt where
  | raises
  | returns (uav : Option Unit)
  deriving DecidableEq

/-- The environment of one iteration of the `while self._uav is None`
loop: the result of `is_preempt_requested()`, the elapsed time
`now - start_time`, and the behavior of this iteration's
`connect_uav()` call. -/
structure InitIter where
  preempt_requested : Bool
  elapsed : ℚ
  attempt : ConnectAttempt
  deriving DecidableEq

/-- A terminal-status call made on the `SimpleActionServer`.
`preempted` and `aborted` are the calls at lines 105 and 110 of the
source; both turn out to be unreachable (see `execute_init_cb`). -/
inductive Ev where
  | preempted
  | aborted
  | succeeded
  deriving DecidableEq

/-- How the modelled run of `execute_init_cb` ended. -/
inductive InitEnd where
  | raisedOut
  | attrErrorOut
  | connected
  | stillLooping
  deriving DecidableEq

/-- `execute_init_cb` (lines 95-120) over a finite trace of loop-iteration
environments.  Per iteration, in source order:
if `is_preempt_requested()`, the branch first evaluates
`rospy.loginfo(f"{self._action_name} Preempted")` — but `_action_name`
is never assigned anywhere in `PIDActionServer` (`__init__` sets
`app_name`), so the f-string raises `AttributeError` out of the callback
(the `try` block comes later and does not cover it) and `set_preempted()`
on the next line is never reached; the `now - start_time > 30` branch
likewise evaluates `rospy.loginfo(f"{self._action_name} Aborted")` and
raises before `set_aborted()`.  Otherwise `connect_uav()` is attempted —
an exception is logged (`print`) and re-raised (`raise err`), ending the
callback; a `None` result leaves `_uav` as `None` so the loop continues;
a drone handle leads to `streamon()`, a plain-string log, and
`set_succeeded()`.  Returns the terminal-status calls made, in order,
and how the run ended. -/
def execute_init_cb : List InitIter → List Ev × InitEnd
  | [] => ([], .stillLooping)
  | it :: rest =>
    if it.preempt_requested then ([], .attrErrorOut)
    else if 30 < it.elapsed then ([], .attrErrorOut)
    else
      match it.attempt with
      | .raises => ([], .raisedOut)
      | .returns none => execute_init_cb rest
      | .returns (some _) => ([Ev.succeeded], .connected)

/-! ## The smach Concurrence of the action client (`action_client.py`)

`sm_concurrent = Concurrence(outcomes=['succeeded', 'aborted'],
default_outcome='succeeded', outcome_map={'aborted': {'PUBLISH':'aborted'}})`
(lines 27-29), with children `PUBLISH` (the stream activity) and
`CONTROL_MOTOR` (the control activity) added at lines 45-47.  smach
semantics: when all children have terminated, the container outcome is a
mapped outcome whose child-outcome condition is satisfied, else the
default outcome. -/

/-- Outcome of a smach state / action. -/
inductive Outcome where
  | succeeded
  | aborted
  | preempted
  deriving DecidableEq

/-- The condition of `sm_concurrent`'s `outcome_map` for the container
outcome `aborted`: it names only `PUBLISH`, requiring
`PUBLISH = 'aborted'`. -/
def outcomeMapAbortedSat (publish _control : Outcome) : Prop :=
  publish = Outcome.aborted

instance (p c : Outcome) : Decidable (outcomeMapAbortedSat p c) := by
  unfold outcomeMapAbortedSat; infer_instance

/-- The composite outcome of `sm_concurrent` given the outcomes of its
two children: `aborted` when the `outcome_map` condition holds, else the
`default_outcome` `succeeded`. -/
def sm_concurrent_outcome (publish control : Outcome) : Outcome :=
  if outcomeMapAbortedSat publish control then Outcome.aborted else Outcome.succeeded

/-! ## The bounded frame queue (`BaseInference.py`)

`self.image_queue = Queue(maxsize=5)` (line 40).  The producer
(`image_callback`, lines 70-85) does `if not full(): put(frame)` — a full
queue drops the new frame.  The consumer (`run`, lines 93-110) does
`if not empty(): get()`.  The queue is modelled as a list (front = next
item to dequeue) together with the list of frames the consumer has
observed, and frames are identified by values of an arbitrary type. -/

/-- The queue capacity: `Queue(maxsize=5)`. -/
def queueCapacity : ℕ := 5

/-- An operation on the frame queue: the producer callback receiving a
frame, or one consumer-loop iteration. -/
inductive QOp (α : Type) where
  | enq (f : α)
  | deq
  deriving DecidableEq

/-- Producer / consumer state: the queue contents and the frames the
consumer has dequeued so far, in order. -/
structure QState (α : Type) where
  queue : List α
  consumed : List α
  deriving DecidableEq

/-- One operation on the queue.  `enq` is `image_callback`'s
`if not self.image_queue.full(): self.image_queue.put(...)`; `deq` is
`run`'s `if not self.image_queue.empty(): self.image_queue.get()`. -/
def qstep {α : Type} (st : QState α) (op : QOp α) : QState α :=
  match op with
  | .enq f =>
    if st.queue.length < queueCapacity then { st with queue := st.queue ++ [f] } else st
  | .deq =>
    match st.queue with
    | [] => st
    | x :: xs => { queue := xs, consumed := st.consumed ++ [x] }

/-- Run a sequence of queue operations. -/
def qrun {α : Type} (st : QState α) : List (QOp α) → QState α
  | [] => st
  | op :: rest => qrun (qstep st op) rest

/-- The frames accepted (not dropped) by the queue along a run: an `enq`
is accepted exactly when the queue is not full at that moment. -/
def qaccepted {α : Type} (st : QState α) : List (QOp α) → List α
  | [] => []
  | QOp.enq f :: rest =>
    if st.queue.length < queueCapacity then f :: qaccepted (qstep st (QOp.enq f)) rest
    else qaccepted st rest
  | QOp.deq :: rest => qaccepted (qstep st QOp.deq) rest

/-- A concrete server state in TRACK mode with a target off-center: the
feedback fields hold plain values an earlier detection could have
produced (`x_err = 5`, `y_err = 7`, both `prev` errors still `0`,
`area = 30000` inside the setpoint band). -/
def trackStateEx : PIDActionServer :=
  { initServer with is_search := false, x_err := 5, y_err := 7, area := some 30000 }

/-- A concrete prior feedback state with `x_err ≠ prev_x_err` and
`y_err ≠ prev_y_err`, as arises whenever the latest detection moved the
target. -/
def feedbackPrior : PIDActionServer :=
  { initServer with is_search := false, x_err := 5, y_err := 7,
                    prev_x_err := 1, prev_y_err := 2, area := some 30000 }

end HiFly

namespace HiFly

/-! ## Claim theorems -/

/-- C1: claim FALSE of the code (code bug).  The claim says that after a
TRACK tick's command computation, `prev_x_err` equals the `x_err` used in
that tick and `prev_y_err` equals the `y_err` used.  But `execute_track_cb`
never assigns `_prev_x_err`/`_prev_y_err` (its body writes only local
velocity variables), so on the concrete TRACK state `trackStateEx` with
`x_err = 5`, `y_err = 7`, `prev_x_err = prev_y_err = 0`, the state after
the tick still has `prev_x_err = 0 ≠ 5 = x_err` and
`prev_y_err = 0 ≠ 7 = y_err`. -/
theorem C1_track_tick_never_updates_prev_err :
    (execute_track_cb_body trackStateEx).1.prev_x_err ≠ trackStateEx.x_err
      ∧ (execute_track_cb_body trackStateEx).1.prev_y_err ≠ trackStateEx.y_err := by
  decide

/-- C2 counterexample: `on_result` with `area = 0` does NOT leave
`x_err`/`y_err` unchanged on every prior feedback state: on
`feedbackPrior` (where `x_err = 5 ≠ 1 = prev_x_err` and
`y_err = 7 ≠ 2 = prev_y_err`) the callback overwrites both. -/
theorem C2_area_zero_overwrites_err :
    (process_var_sub_cb feedbackPrior ⟨0, 300, 200⟩).x_err ≠ feedbackPrior.x_err
      ∧ (process_var_sub_cb feedbackPrior ⟨0, 300, 200⟩).y_err ≠ feedbackPrior.y_err := by
  decide

/-- C2 amended: for every prior feedback state, `on_result` with
`area = 0` sets `is_search = true`, assigns `x_err := prev_x_err` and
`y_err := prev_y_err` (so they are unchanged exactly when they already
equal the stored previous errors), and leaves the `area` field
unchanged. -/
theorem C2_area_zero_sets_err_from_prev (s : PIDActionServer) (msg : ProcessVar)
    (h : msg.area = 0) :
    (process_var_sub_cb s msg).is_search = true
      ∧ (process_var_sub_cb s msg).x_err = s.prev_x_err
      ∧ (process_var_sub_cb s msg).y_err = s.prev_y_err
      ∧ (process_var_sub_cb s msg).area = s.area
      ∧ ((process_var_sub_cb s msg).x_err = s.x_err ↔ s.x_err = s.prev_x_err)
      ∧ ((process_var_sub_cb s msg).y_err = s.y_err ↔ s.y_err = s.prev_y_err) := by
  simp [process_var_sub_cb, h, eq_comm]

/-- Witness for C2's amended theorem at the concrete state
`feedbackPrior` and a zero-area message. -/
theorem C2_witness :
    (ProcessVar.mk 0 300 200).area = 0
      ∧ ((process_var_sub_cb feedbackPrior ⟨0, 300, 200⟩).is_search = true
          ∧ (process_var_sub_cb feedbackPrior ⟨0, 300, 200⟩).x_err = feedbackPrior.prev_x_err
          ∧ (process_var_sub_cb feedbackPrior ⟨0, 300, 200⟩).y_err = feedbackPrior.prev_y_err
          ∧ (process_var_sub_cb feedbackPrior ⟨0, 300, 200⟩).area = feedbackPrior.area
          ∧ ((process_var_sub_cb feedbackPrior ⟨0, 300, 200⟩).x_err = feedbackPrior.x_err
              ↔ feedbackPrior.x_err = feedbackPrior.prev_x_err)
          ∧ ((process_var_sub_cb feedbackPrior ⟨0, 300, 200⟩).y_err = feedbackPrior.y_err
              ↔ feedbackPrior.y_err = feedbackPrior.prev_y_err)) :=
  ⟨by decide, C2_area_zero_sets_err_from_prev feedbackPrior ⟨0, 300, 200⟩ (by decide)⟩

/-- C3 counterexample: the composite outcome is NOT aborted when only the
CONTROL_MOTOR child aborts — with `PUBLISH = succeeded` and
`CONTROL_MOTOR = aborted`, `sm_concurrent` reports its default outcome
`succeeded`, because its `outcome_map` names only `PUBLISH`. -/
theorem C3_control_abort_alone_not_aborted :
    sm_concurrent_outcome Outcome.succeeded Outcome.aborted ≠ Outcome.aborted := by
  decide

/-- C3 amended: the composite outcome of `sm_concurrent` is `aborted`
exactly when the PUBLISH (stream) child reports `aborted`; in every
other case — including a CONTROL_MOTOR abort on its own — it is the
default outcome `succeeded`. -/
theorem C3_composite_aborted_iff_publish_aborted (publish control : Outcome) :
    sm_concurrent_outcome publish control = Outcome.aborted ↔ publish = Outcome.aborted := by
  cases publish <;> cases control <;> decide

/-- C4: claim FALSE of the code (code bug).  The claim (and the
`"Trying again..."` log line) says a failed `connect_uav()` attempt is
retried until the 30 s deadline; but the `except` branch re-raises the
caught exception (`raise err`), so the very first failing attempt ends
the CONNECT callback: on a trace whose first attempt raises at elapsed
time 1 s — with a second attempt available that would succeed — the run
ends with the exception propagating out, no terminal status set and no
retry made. -/
theorem C4_first_failed_attempt_raises_out :
    execute_init_cb
        [⟨false, 1, ConnectAttempt.raises⟩, ⟨false, 2, ConnectAttempt.returns (some ())⟩]
      = ([], InitEnd.raisedOut) := by
  decide

/-- C5: claim FALSE of the code (code bug).  The claim says a pending
preempt makes the session end PREEMPTED, superseding the deadline/abort
path, even when the 30 s deadline has elapsed at the same check point.
But the preempt branch first evaluates
`f"{self._action_name} Preempted"`, and `_action_name` is never
assigned, so at the iteration with `is_preempt_requested() = true` and
`elapsed = 31 > 30` an `AttributeError` propagates out of the callback
before `set_preempted()` is reached: no terminal status is set at all —
in particular the session does not end PREEMPTED. -/
theorem C5_preempt_check_raises_before_status :
    execute_init_cb [⟨true, 31, ConnectAttempt.returns none⟩] = ([], InitEnd.attrErrorOut)
      ∧ Ev.preempted ∉ (execute_init_cb [⟨true, 31, ConnectAttempt.returns none⟩]).1 := by
  decide

/-- C6: `pid` returns
`kp*error + kd1*(error-prev_error) + kd2*(error-prev_error)` (with
`(kp, kd1, kd2) = pid_input`), and in particular `pid e e = kp*e`
exactly: both derivative-shaped terms cancel when the error is
unchanged. -/
theorem C6_pid_formula_and_cancellation (s : PIDActionServer) (e p : ℚ) :
    pid s e p
        = s.pid_input.1 * e + s.pid_input.2.1 * (e - p) + s.pid_input.2.2 * (e - p)
      ∧ pid s e e = s.pid_input.1 * e := by
  refine ⟨rfl, ?_⟩
  unfold pid
  ring

/-- C7: for every server state whose `area` field holds `a` — including
the boundary values `a = setpoint_area.1` and `a = setpoint_area.2` —
the TRACK tick's forward velocity is `20` when `a` is below the low
bound, `-20` when `a` is above the high bound, and `0` otherwise (i.e.
inside the band, boundaries included). -/
theorem C7_forward_velocity_by_area (s : PIDActionServer) (a : ℚ) (h : s.area = some a) :
    (trackTickCmd s).map (fun c => c.forward_backward)
      = some (if a < s.setpoint_area.1 then 20
              else if s.setpoint_area.2 < a then -20
              else 0) := by
  unfold trackTickCmd
  rw [h]
  simp only [Option.map_some']
  split_ifs <;> first | rfl | (exfalso; linarith)

/-- `np.clip` keeps its argument between the two bounds when the bounds
are ordered. -/
lemma npclip_bounds (v lo hi : ℚ) (h : lo ≤ hi) :
    lo ≤ npclip v lo hi ∧ npclip v lo hi ≤ hi := by
  unfold npclip
  exact ⟨le_min (le_max_right v lo) h, min_le_right _ _⟩

/-- Truncation toward zero of a rational between two integer bounds stays
between those bounds. -/
lemma pyint_bounds {zlo zhi : ℤ} {w : ℚ} (h1 : (zlo : ℚ) ≤ w) (h2 : w ≤ (zhi : ℚ)) :
    zlo ≤ pyint w ∧ pyint w ≤ zhi := by
  unfold pyint
  split_ifs with h0
  · refine ⟨Int.le_floor.mpr h1, ?_⟩
    calc ⌊w⌋ ≤ ⌊(zhi : ℚ)⌋ := Int.floor_mono h2
      _ = zhi := Int.floor_intCast zhi
  · refine ⟨?_, Int.ceil_le.mpr h2⟩
    calc zlo = ⌈(zlo : ℚ)⌉ := (Int.ceil_intCast zlo).symm
      _ ≤ ⌈w⌉ := Int.ceil_mono h1

/-- `int(np.clip(v, lo, hi))` lies in `[zlo, zhi]` when `lo` and `hi`
are the rational images of the integer bounds. -/
lemma pyint_npclip_bounds (v lo hi : ℚ) (zlo zhi : ℤ)
    (hlo : lo = (zlo : ℚ)) (hhi : hi = (zhi : ℚ)) (h : lo ≤ hi) :
    zlo ≤ pyint (npclip v lo hi) ∧ pyint (npclip v lo hi) ≤ zhi := by
  have hb := npclip_bounds v lo hi h
  exact pyint_bounds (hlo ▸ hb.1) (hhi ▸ hb.2)

/-- C8: whenever a TRACK tick produces a command, its yaw lies in
`[-100, 100]` and its vertical (up/down) velocity lies in `[-50, 50]`,
for arbitrary (including extreme) error magnitudes; the zero-error
branches emit 0, also inside the respective range. -/
theorem C8_yaw_vertical_clamped (s : PIDActionServer) (c : Cmd)
    (h : trackTickCmd s = some c) :
    (-100 ≤ c.yaw ∧ c.yaw ≤ 100) ∧ (-50 ≤ c.up_down ∧ c.up_down ≤ 50) := by
  unfold trackTickCmd at h
  cases ha : s.area with
  | none => rw [ha] at h; exact absurd h (by simp)
  | some a =>
    rw [ha] at h
    simp only [Option.some.injEq] at h
    subst h
    constructor
    · dsimp only
      split_ifs with hx
      · exact pyint_npclip_bounds _ _ _ (-100) 100 (by norm_num) (by norm_num) (by norm_num)
      · exact ⟨by norm_num, by norm_num⟩
    · dsimp only
      split_ifs with hy
      · exact pyint_npclip_bounds _ _ _ (-50) 50 (by norm_num) (by norm_num) (by norm_num)
      · exact ⟨by norm_num, by norm_num⟩

/-- Witness for C8 at a concrete state: with zero errors and
`area = 10`, the tick produces the command `(0, 20, 0, 0)`, whose yaw
and vertical components satisfy the bounds. -/
theorem C8_witness :
    trackTickCmd { initServer with area := some 10 } = some ⟨0, 20, 0, 0⟩
      ∧ ((-100 ≤ (Cmd.mk 0 20 0 0).yaw ∧ (Cmd.mk 0 20 0 0).yaw ≤ 100)
          ∧ (-50 ≤ (Cmd.mk 0 20 0 0).up_down ∧ (Cmd.mk 0 20 0 0).up_down ≤ 50)) :=
  ⟨by decide, C8_yaw_vertical_clamped { initServer with area := some 10 } ⟨0, 20, 0, 0⟩ (by decide)⟩

/-- Witness for C7 at a concrete state: `area = 10` is below the low
bound `20000`, so the forward velocity is `20`. -/
theorem C7_witness :
    ({ initServer with area := some 10 } : PIDActionServer).area = some 10
      ∧ (trackTickCmd { initServer with area := some 10 }).map (fun c => c.forward_backward)
          = some (if (10:ℚ) < ({ initServer with area := some 10 } : PIDActionServer).setpoint_area.1 then 20
                  else if ({ initServer with area := some 10 } : PIDActionServer).setpoint_area.2 < (10:ℚ) then -20
                  else 0) :=
  ⟨by decide, C7_forward_velocity_by_area { initServer with area := some 10 } 10 (by decide)⟩

/-- Invariant of a queue run: the length bound is preserved and the
frames the consumer has observed, followed by the frames still queued,
are exactly the prior contents followed by the accepted (non-dropped)
enqueues, in order. -/
lemma qrun_inv {α : Type} (ops : List (QOp α)) :
    ∀ st : QState α, st.queue.length ≤ queueCapacity →
      (qrun st ops).queue.length ≤ queueCapacity
        ∧ (qrun st ops).consumed ++ (qrun st ops).queue
            = st.consumed ++ st.queue ++ qaccepted st ops := by
  induction ops with
  | nil => intro st h; simp [qrun, qaccepted, h]
  | cons op rest ih =>
    intro st h
    cases op with
    | enq f =>
      by_cases hfull : st.queue.length < queueCapacity
      · have hstep := ih { st with queue := st.queue ++ [f] } (by simpa using hfull)
        simp only [qrun, qstep, qaccepted, if_pos hfull]
        refine ⟨hstep.1, ?_⟩
        rw [hstep.2]
        simp [List.append_assoc]
      · have hstep := ih st h
        simp only [qrun, qstep, qaccepted, if_neg hfull]
        exact hstep
    | deq =>
      cases hq : st.queue with
      | nil =>
        have hstep := ih st h
        simp only [qrun, qstep, qaccepted, hq] at hstep ⊢
        cases st with
        | mk q cons =>
          simp only at hq
          subst hq
          simpa using hstep
      | cons x xs =>
        have hlen : xs.length ≤ queueCapacity := by
          have := h
          rw [hq] at this
          simp at this
          omega
        have hstep := ih { queue := xs, consumed := st.consumed ++ [x] } (by simpa using hlen)
        simp only [qrun, qstep, qaccepted, hq] at hstep ⊢
        refine ⟨hstep.1, ?_⟩
        rw [hstep.2]
        simp [List.append_assoc]

/-- C9: for every sequence of producer/consumer operations starting from
the empty queue, the queue never holds more than `queueCapacity = 5`
frames, and the frames the consumer has observed followed by the frames
still queued are exactly the accepted (non-dropped) enqueues in order —
so dropped frames are never observed and the non-dropped frames are
dequeued in FIFO order. -/
theorem C9_queue_bounded_fifo {α : Type} (ops : List (QOp α)) :
    (qrun ⟨[], []⟩ ops).queue.length ≤ queueCapacity
      ∧ (qrun ⟨[], []⟩ ops).consumed ++ (qrun ⟨[], []⟩ ops).queue
          = qaccepted ⟨[], []⟩ ops := by
  have h := qrun_inv ops ⟨[], []⟩ (by simp)
  simpa using h

/-- The per-operation hypothesis of C10: `ProcessVar.area` is a
bounding-box area, hence nonnegative (the data model constrains
`DetectionResult.area ≥ 0`). -/
def opAreaNonneg : ServerOp → Prop
  | .result msg => 0 ≤ msg.area
  | .tick => True

instance (op : ServerOp) : Decidable (opAreaNonneg op) := by
  cases op <;> (unfold opAreaNonneg; infer_instance)

/-- The C10 invariant: whenever the server is not in SEARCH mode, its
`area` attribute has been assigned a positive value. -/
def areaInv (s : PIDActionServer) : Prop :=
  s.is_search = false → ∃ a, s.area = some a ∧ 0 < a

/-- A main-loop tick leaves the server state unchanged: the SEARCH body
is `pass` and the TRACK body writes only local variables. -/
lemma mainTick_eq (s : PIDActionServer) : mainTick s = s := by
  cases hs : s.is_search <;>
    simp [mainTick, execute_search_cb_body, execute_track_cb_body, hs]

/-- Each public operation preserves the C10 invariant (given a
nonnegative message area). -/
lemma stepServer_preserves_areaInv (s : PIDActionServer) (op : ServerOp)
    (hop : opAreaNonneg op) (hs : areaInv s) : areaInv (stepServer s op) := by
  cases op with
  | tick => simpa [stepServer, mainTick_eq] using hs
  | result msg =>
    by_cases h0 : msg.area = 0
    · intro hfalse
      simp [stepServer, process_var_sub_cb, h0] at hfalse
    · intro _
      refine ⟨msg.area, ?_, ?_⟩
      · simp [stepServer, process_var_sub_cb, h0]
      · exact lt_of_le_of_ne hop (Ne.symm h0)

/-- Folding public operations preserves the C10 invariant. -/
lemma foldl_preserves_areaInv (ops : List ServerOp) :
    ∀ s : PIDActionServer, (∀ op ∈ ops, opAreaNonneg op) → areaInv s →
      areaInv (ops.foldl stepServer s) := by
  induction ops with
  | nil => intro s _ hs; simpa using hs
  | cons op rest ih =>
    intro s hops hs
    have h1 : opAreaNonneg op := hops op (List.mem_cons_self op rest)
    have h2 : ∀ o ∈ rest, opAreaNonneg o := fun o ho => hops o (List.mem_cons_of_mem op ho)
    simpa using ih (stepServer s op) h2 (stepServer_preserves_areaInv s op h1 hs)

/-- A TRACK tick on a state whose `area` attribute is assigned does
produce a command (no `AttributeError`). -/
lemma trackTickCmd_isSome (s : PIDActionServer) (a : ℚ) (h : s.area = some a) :
    (trackTickCmd s).isSome := by
  simp [trackTickCmd, h]

/-- C10: in every state reachable from `__init__` through the public
operations (feedback callbacks whose message areas are nonnegative, and
main-loop ticks), `is_search = false` implies the `area` attribute has
been assigned a positive value by a prior callback; hence the TRACK
tick, which only runs when `is_search` is false, reads an assigned
`area` attribute and produces a command. -/
theorem C10_track_area_assigned (ops : List ServerOp)
    (hops : ∀ op ∈ ops, opAreaNonneg op)
    (htrack : (runServer ops).is_search = false) :
    ∃ a, (runServer ops).area = some a ∧ 0 < a
      ∧ (trackTickCmd (runServer ops)).isSome := by
  have hinit : areaInv initServer := by intro hfalse; simp [initServer] at hfalse
  have hinv : areaInv (runServer ops) :=
    foldl_preserves_areaInv ops initServer hops hinit
  obtain ⟨a, ha, hpos⟩ := hinv htrack
  exact ⟨a, ha, hpos, trackTickCmd_isSome (runServer ops) a ha⟩

/-- Witness for C10 on the concrete trace of one detection callback with
area 1 centered at `(485, 360)`. -/
theorem C10_witness :
    (∀ op ∈ [ServerOp.result ⟨1, 485, 360⟩], opAreaNonneg op)
      ∧ (runServer [ServerOp.result ⟨1, 485, 360⟩]).is_search = false
      ∧ ∃ a, (runServer [ServerOp.result ⟨1, 485, 360⟩]).area = some a ∧ 0 < a
          ∧ (trackTickCmd (runServer [ServerOp.result ⟨1, 485, 360⟩])).isSome :=
  ⟨by decide, by decide,
    C10_track_area_assigned [ServerOp.result ⟨1, 485, 360⟩] (by decide) (by decide)⟩

end HiFly
